import Mathlib

/-!
Verification of the freshness-aware translation cache of hd2_qqbot.

Shallow embedding of:
 * utils/text_matcher.py  (TextMatcher: clean text, difflib SequenceMatcher
   ratio, similarity, staleness, three-way diff)
 * core/news.py           (TranslationService.translate_text,
   DispatchService.refresh_cache_if_needed, _translate_and_cache_dispatches,
   get_dispatches)
 * core/order.py          (OrderService._translate_and_cache_orders)
 * utils/api_retry.py     (exponential_backoff_retry)
 * utils/translation_cache.py (check_content_freshness and the refresh stamp)
 * utils/translation_retry_queue.py (add_retry_task, _process_retry_queue,
   _process_retry_tasks)
 * utils/cache_manager.py (APICacheManager.force_update, _update_cache)

Network and store effects are passed in as explicit oracles (the list of
attempt outcomes for a retried HTTP call, the value an individual
translation call returns, the payload a fetch produced) and the functions
additionally return counters for the effects the claims talk about (number
of upstream fetches, number of translation calls).  Time is modelled as
natural-number seconds.  Python str.strip is modelled by pyStrip,
str.lower by a Char.toLower map; character classes are modelled over ASCII
alphanumerics, underscore and the CJK block 0x4e00-0x9fff (the Python
regexes are Unicode-wide, the inputs handled by the bot are covered by
this fragment).
-/

namespace HD2

/-! ### utils/text_matcher.py : _clean_text -/

/-- Python regex whitespace class over the characters the bot handles:
space, tab, newline, carriage return, vertical tab, form feed. -/
def pyIsSpace (c : Char) : Bool :=
  c = ' ' || c = '\t' || c = '\n' || c = '\r' || c = Char.ofNat 11 || c = Char.ofNat 12

/-- Python str.strip over the handled character range: drop whitespace
from both ends. -/
def stripEnds (cs : List Char) : List Char :=
  ((cs.dropWhile pyIsSpace).reverse.dropWhile pyIsSpace).reverse

/-- Python str.strip on a string. -/
def pyStrip (s : String) : String :=
  String.mk (stripEnds s.toList)

/-- Scan for the closing char of an HTML tag: after at least one
non-gt character, the first gt char ends the tag.  Returns the suffix
after the tag, none when the regex cannot match here. -/
def afterTagGo : List Char → Option (List Char)
  | [] => none
  | c :: rest => if c = '>' then some rest else afterTagGo rest

/-- One HTML-tag match attempt right after an opening angle bracket:
the regex in the source needs one or more non-gt characters, then gt. -/
def afterTag : List Char → Option (List Char)
  | [] => none
  | c :: rest => if c = '>' then none else afterTagGo rest

/-- re.sub of the tag pattern with the empty string, fuel-indexed so the
definition stays a structural recursion (fuel = input length suffices,
every step consumes at least one character). -/
def stripTagsF : Nat → List Char → List Char
  | 0, cs => cs
  | _ + 1, [] => []
  | fuel + 1, c :: rest =>
    if c = '<' then
      match afterTag rest with
      | some rest2 => stripTagsF fuel rest2
      | none => c :: stripTagsF fuel rest
    else c :: stripTagsF fuel rest

def stripTags (cs : List Char) : List Char :=
  stripTagsF cs.length cs

/-- re.sub collapsing each whitespace run to a single space; the flag
records whether the previous character was part of a run. -/
def collapseWsAux : Bool → List Char → List Char
  | _, [] => []
  | prevSpace, c :: rest =>
    if pyIsSpace c then
      if prevSpace then collapseWsAux true rest
      else ' ' :: collapseWsAux true rest
    else c :: collapseWsAux false rest

/-- Characters kept by the third re.sub of _clean_text: word characters,
whitespace, the CJK block, and basic punctuation. -/
def isKeptChar (c : Char) : Bool :=
  c.isAlphanum || c = '_' || (0x4e00 ≤ c.toNat && c.toNat ≤ 0x9fff) || pyIsSpace c ||
    c = '.' || c = ',' || c = '!' || c = '?' || c = ';' || c = ':' ||
    c = Char.ofNat 39 || c = Char.ofNat 34 || c = '-'

/-- TextMatcher._clean_text: strip HTML tags, collapse whitespace, drop
special characters, then strip and lowercase. -/
def clean_text (text : String) : String :=
  if text = "" then ""
  else
    let cs1 := stripTags text.toList
    let cs2 := collapseWsAux false cs1
    let cs3 := cs2.filter isKeptChar
    String.mk ((stripEnds cs3).map Char.toLower)

/-! ### difflib.SequenceMatcher (stdlib collaborator of calculate_similarity)

isjunk is None at the call site, so the junk set is empty and the two
junk-extension loops of find_longest_match never fire; autojunk stays at
its default True. -/

/-- Indices at which a character occurs in b (the b2j entry before the
popular purge), in increasing order. -/
def indicesOf (b : List Char) (c : Char) : List Nat :=
  (List.range b.length).filter (fun j => b.getD j ' ' = c)

/-- b2j lookup with the autojunk popular-element purge: when b has at
least 200 elements, elements occurring more than len(b)/100 + 1 times are
dropped from the index. -/
def b2j (b : List Char) (c : Char) : List Nat :=
  let idxs := indicesOf b c
  if 200 ≤ b.length ∧ b.length / 100 + 1 < idxs.length then [] else idxs

/-- Result triple of find_longest_match. -/
structure FLM where
  besti : Nat
  bestj : Nat
  bestsize : Nat
deriving DecidableEq

/-- j2len dictionary lookup with default 0. -/
def lookupD (m : List (Nat × Nat)) (k : Nat) : Nat :=
  match m.find? (fun p => p.1 == k) with
  | some p => p.2
  | none => 0

/-- Backward extension loop of find_longest_match (the junk set is empty,
so only the first while loop can act).  Fuel bounds the number of
decrements; besti itself is a valid bound. -/
def extendBack (a b : List Char) (alo blo : Nat) :
    Nat → Nat → Nat → Nat → Nat × Nat × Nat
  | 0, bi, bj, bs => (bi, bj, bs)
  | fuel + 1, bi, bj, bs =>
    if alo < bi ∧ blo < bj ∧ a.getD (bi - 1) ' ' = b.getD (bj - 1) ' ' then
      extendBack a b alo blo fuel (bi - 1) (bj - 1) (bs + 1)
    else (bi, bj, bs)

/-- Forward extension loop of find_longest_match. -/
def extendFwd (a b : List Char) (ahi bhi : Nat) :
    Nat → Nat → Nat → Nat → Nat
  | 0, _, _, bs => bs
  | fuel + 1, bi, bj, bs =>
    if bi + bs < ahi ∧ bj + bs < bhi ∧ a.getD (bi + bs) ' ' = b.getD (bj + bs) ' ' then
      extendFwd a b ahi bhi fuel bi bj (bs + 1)
    else bs

/-- find_longest_match over a[alo:ahi] and b[blo:bhi]: the nested loop
over i and over the b2j entry of a[i], threading the j2len dictionary,
followed by the two live extension loops. -/
def findLongestMatch (a b : List Char) (bj : Char → List Nat)
    (alo ahi blo bhi : Nat) : FLM :=
  let step := fun (st : List (Nat × Nat) × FLM) (i : Nat) =>
    let j2len := st.1
    let js := (bj (a.getD i ' ')).filter (fun j => decide (blo ≤ j) && decide (j < bhi))
    js.foldl
      (fun (st2 : List (Nat × Nat) × FLM) (j : Nat) =>
        let k := (if j = 0 then 0 else lookupD j2len (j - 1)) + 1
        let nj := (j, k) :: st2.1
        if st2.2.bestsize < k then (nj, ⟨i + 1 - k, j + 1 - k, k⟩) else (nj, st2.2))
      (([] : List (Nat × Nat)), st.2)
  let res := (List.range' alo (ahi - alo)).foldl step (([] : List (Nat × Nat)), (⟨alo, blo, 0⟩ : FLM))
  let m := res.2
  let ext := extendBack a b alo blo m.besti m.besti m.bestj m.bestsize
  let bi := ext.1
  let bj2 := ext.2.1
  let bs := ext.2.2
  let bs2 := extendFwd a b ahi bhi (ahi - (bi + bs)) bi bj2 bs
  ⟨bi, bj2, bs2⟩

/-- get_matching_blocks restricted to the total matched size (the only
thing ratio consumes; the sort and adjacent-merge steps do not change the
sum).  The queue is the stack of pending subranges; fuel bounds the number
of pops, 2*(len a + len b) + 2 is enough because every split removes a
nonempty match from the remaining area. -/
def matchTotalAux (a b : List Char) (bj : Char → List Nat) :
    Nat → List (Nat × Nat × Nat × Nat) → Nat → Nat
  | 0, _, acc => acc
  | _ + 1, [], acc => acc
  | fuel + 1, (alo, ahi, blo, bhi) :: queue, acc =>
    let m := findLongestMatch a b bj alo ahi blo bhi
    if m.bestsize = 0 then matchTotalAux a b bj fuel queue acc
    else
      let q1 := if alo < m.besti ∧ blo < m.bestj then [(alo, m.besti, blo, m.bestj)] else []
      let q2 :=
        if m.besti + m.bestsize < ahi ∧ m.bestj + m.bestsize < bhi then
          [(m.besti + m.bestsize, ahi, m.bestj + m.bestsize, bhi)]
        else []
      matchTotalAux a b bj fuel (q2 ++ q1 ++ queue) (acc + m.bestsize)

/-- Sum of the sizes of the matching blocks of a and b. -/
def seqMatches (a b : List Char) : Nat :=
  matchTotalAux a b (b2j b) (2 * (a.length + b.length) + 2) [(0, a.length, 0, b.length)] 0

/-! ### TextMatcher similarity and staleness -/

/-- TextMatcher.similarity_threshold (0.99). -/
def similarity_threshold : ℚ := mkRat 99 100

/-- TextMatcher.calculate_similarity: 1.0 for two empty texts, 0.0 when
exactly one is empty, otherwise the SequenceMatcher ratio of the cleaned
texts (2*matches/total, or 1.0 when both cleaned texts are empty, as in
difflib._calculate_ratio). -/
def calculate_similarity (text1 text2 : String) : ℚ :=
  if text1 = "" ∧ text2 = "" then 1
  else if text1 = "" ∨ text2 = "" then 0
  else
    let c1 := (clean_text text1).toList
    let c2 := (clean_text text2).toList
    let total := c1.length + c2.length
    if total = 0 then 1
    else mkRat (2 * (seqMatches c1 c2 : Int)) total

/-- TextMatcher.is_content_outdated: stale iff similarity is strictly
below the threshold. -/
def is_content_outdated (cached_text new_text : String) : Bool :=
  decide (calculate_similarity cached_text new_text < similarity_threshold)

/-! ### TextMatcher.find_content_changes -/

/-- A content item as the diff sees it: the optional stable id and the
compare field (content_key = 'message'; item.get returns '' when the
field is missing, so the field holds the gotten value). -/
structure Item where
  id : Option Int
  message : String
deriving DecidableEq

/-- item.get('id', i): the id when present, else the positional index. -/
def itemKey (idx : Nat) (it : Item) : Int :=
  it.id.getD (Int.ofNat idx)

/-- The enumerated items paired with their dict keys. -/
def keyedList (items : List Item) : List (Int × Item) :=
  items.enum.map (fun p => (itemKey p.1 p.2, p.2))

/-- One Python dict insertion: overwrite in place when the key exists,
else append. -/
def pyInsert (d : List (Int × Item)) (k : Int) (v : Item) : List (Int × Item) :=
  if k ∈ d.map Prod.fst then d.map (fun p => if p.1 = k then (p.1, v) else p)
  else d ++ [(k, v)]

/-- The dict comprehension {item.get('id', i): item for i, item in
enumerate(items)} as an insertion-ordered association list. -/
def pyDict (items : List Item) : List (Int × Item) :=
  (keyedList items).foldl (fun d p => pyInsert d p.1 p.2) []

/-- cached_dict[item_id].get(content_key, '') - the compare field of the
entry stored under a key. -/
def dictGetMsg (d : List (Int × Item)) (k : Int) : String :=
  match d.find? (fun p => p.1 == k) with
  | some p => p.2.message
  | none => ""

/-- TextMatcher.find_content_changes: three-way diff (added, updated,
deleted) of the cached and the fresh item lists, keyed by id with
positional fallback, content compared with is_content_outdated. -/
def find_content_changes (cached_items new_items : List Item) :
    List Item × List Item × List Item :=
  let cached_dict := pyDict cached_items
  let new_dict := pyDict new_items
  let added := (new_dict.filter (fun p => ! decide (p.1 ∈ cached_dict.map Prod.fst))).map Prod.snd
  let updated := (new_dict.filter (fun p =>
      decide (p.1 ∈ cached_dict.map Prod.fst) &&
        is_content_outdated (dictGetMsg cached_dict p.1) p.2.message)).map Prod.snd
  let deleted := (cached_dict.filter (fun p => ! decide (p.1 ∈ new_dict.map Prod.fst))).map Prod.snd
  (added, updated, deleted)

/-- The diff as the specification words it (findChanges contract): items
keyed by stable id with positional fallback; added = keys in fresh only,
updated = keys in both whose compare field fails the similarity test
against the cached item, deleted = keys in cached only. -/
def findChangesSpec (cached_items new_items : List Item) :
    List Item × List Item × List Item :=
  let ck := keyedList cached_items
  let nk := keyedList new_items
  let added := (nk.filter (fun p => ! decide (p.1 ∈ ck.map Prod.fst))).map Prod.snd
  let updated := (nk.filter (fun p =>
      decide (p.1 ∈ ck.map Prod.fst) &&
        is_content_outdated (dictGetMsg ck p.1) p.2.message)).map Prod.snd
  let deleted := (ck.filter (fun p => ! decide (p.1 ∈ nk.map Prod.fst))).map Prod.snd
  (added, updated, deleted)

/-! ### core/news.py : TranslationService.translate_text

One constructor per branch of the attempt loop body.  `ok t` stands for a
200 response whose JSON parsed, carried code 200 and a data object, with
t the stripped translated_text field.  `apiError` is a 200 response with
a non-200 code field, `badJson` a 200 response whose JSON parsing raised,
`httpStatus c` a response with status c other than 200, and the rest are
the exception handlers (asyncio.TimeoutError, aiohttp.ClientError, the
generic except). -/
inductive TransOutcome where
  | ok (t : String)
  | apiError
  | badJson
  | httpStatus (c : Nat)
  | timeout
  | netError
  | exc
deriving DecidableEq

/-- The retry loop of translate_text over the per-attempt outcomes, also
counting the attempts consumed.  An `ok` response returns immediately:
the translation when it is nonempty and differs from the trimmed source,
otherwise the original text (no retry).  Every other branch retries while
attempts remain and returns the original text once they run out (the
empty list is the exhausted budget). -/
def translateLoopA (text : String) : List TransOutcome → String × Nat
  | [] => (text, 0)
  | o :: rest =>
    match o with
    | .ok t => if t ≠ "" ∧ t ≠ pyStrip text then (t, 1) else (text, 1)
    | _ =>
      let r := translateLoopA text rest
      (r.1, r.2 + 1)

/-- translate_text with its degenerate-input guards: empty text and text
whose trimmed form is empty or shorter than 3 characters pass through
with no attempt. -/
def translateTextA (text : String) (outs : List TransOutcome) : String × Nat :=
  if text = "" then (text, 0)
  else if pyStrip text = "" then (text, 0)
  else if (pyStrip text).length < 3 then (text, 0)
  else translateLoopA text outs

/-- The returned text of translate_text. -/
def translate_text (text : String) (outs : List TransOutcome) : String :=
  (translateTextA text outs).1

/-! ### utils/api_retry.py : exponential_backoff_retry -/

/-- Outcome of one call of the wrapped function: a plain value (a 200
fetch returning its payload), a duck-typed response object carrying a
status code, or one of the two exception classes handled by the loop. -/
inductive ApiOutcome (α : Type) where
  | value (a : α)
  | httpStatus (code : Nat)
  | timeout
  | netError
deriving DecidableEq

/-- The default retry_on_status list. -/
def defaultRetryOn : List Nat := [429, 500, 502, 503, 504]

/-- exponential_backoff_retry over the list of per-attempt outcomes
(length = max_retries + 1), returning the result (none is the failure
sentinel) and the number of attempts consumed.  A result without a status
attribute returns directly; status 200 returns the response; a status in
retry_on_status retries, any other status is terminal; the two exception
handlers retry. -/
def exponential_backoff_retry {α : Type} (retryOn : List Nat) :
    List (ApiOutcome α) → Option (ApiOutcome α) × Nat
  | [] => (none, 0)
  | o :: rest =>
    match o with
    | .value a => (some (.value a), 1)
    | .httpStatus c =>
      if c = 200 then (some (.httpStatus 200), 1)
      else if c ∈ retryOn then
        let r := exponential_backoff_retry retryOn rest
        (r.1, r.2 + 1)
      else (none, 1)
    | .timeout =>
      let r := exponential_backoff_retry retryOn rest
      (r.1, r.2 + 1)
    | .netError =>
      let r := exponential_backoff_retry retryOn rest
      (r.1, r.2 + 1)

/-! ### translation cache entries and the per-item translate-and-cache
procedures of core/news.py and core/order.py -/

/-- A stored translation cache entry (metadata and timestamps are not
consulted by any claim and are left out). -/
structure CacheEntry where
  content_type : String
  item_id : Int
  original_text : String
  translated_text : String
deriving DecidableEq

/-- Result of one per-item translate-and-cache pass: the entry stored (if
any), whether a RetryTask was enqueued, and how many translation calls
were made. -/
structure ItemResult where
  stored : Option CacheEntry
  retry : Bool
  calls : Nat
deriving DecidableEq

/-- The freshness test of _translate_and_cache_dispatches: translate when
there is no cache entry or its original_text differs from the message. -/
def dispatchFresh (cached : Option CacheEntry) (msg : String) : Bool :=
  match cached with
  | none => true
  | some e => decide (e.original_text ≠ msg)

/-- DispatchService._translate_and_cache_dispatches, one item.  `tr` is
what translate_text returns for a given input.  An empty message is
skipped; a stale or missing entry is translated; the result is stored
when it is nonempty and differs from the original, otherwise a RetryTask
is enqueued. -/
def translate_and_cache_dispatch (tr : String → String) (cached : Option CacheEntry)
    (it : Item) : ItemResult :=
  if it.message = "" then ⟨none, false, 0⟩
  else if dispatchFresh cached it.message then
    let t := tr it.message
    if t ≠ "" ∧ t ≠ it.message then
      ⟨some ⟨"dispatches", it.id.getD 0, it.message, t⟩, false, 1⟩
    else ⟨none, true, 1⟩
  else ⟨none, false, 0⟩

/-- An item of the major-orders payload: the id and the three translatable
setting fields (each holds '' when missing, as .get returns). -/
structure OrderItem where
  id : Option Int
  title : String
  brief : String
  taskDesc : String
deriving DecidableEq

/-- The comparison original built by _translate_and_cache_orders. -/
def orderOriginal (o : OrderItem) : String :=
  o.title ++ "\n" ++ o.brief ++ "\n" ++ o.taskDesc

/-- The freshness test of _translate_and_cache_orders. -/
def orderFresh (cached : Option CacheEntry) (o : OrderItem) : Bool :=
  match cached with
  | none => true
  | some e => decide (e.original_text ≠ orderOriginal o)

/-- Per-field translation of _translate_and_cache_orders: an empty field
is not attempted; the result is kept only when it is nonempty and differs
from the field, else the translated field stays ''. -/
def fieldResult (tr : String → String) (s : String) : String :=
  if s = "" then ""
  else
    let r := tr s
    if r ≠ "" ∧ r ≠ s then r else ""

/-- OrderService._translate_and_cache_orders, one item.  An item with all
three fields empty is skipped.  When at least one field translated, the
entry is stored with per-field fallback to the original; when every field
failed, the source only logs - the add_retry_task call is commented out,
so no RetryTask is ever enqueued on this path. -/
def translate_and_cache_order (tr : String → String) (cached : Option CacheEntry)
    (o : OrderItem) : ItemResult :=
  if o.title = "" ∧ o.brief = "" ∧ o.taskDesc = "" then ⟨none, false, 0⟩
  else if orderFresh cached o then
    let tT := fieldResult tr o.title
    let tB := fieldResult tr o.brief
    let tK := fieldResult tr o.taskDesc
    let calls := (if o.title = "" then 0 else 1) + (if o.brief = "" then 0 else 1) +
      (if o.taskDesc = "" then 0 else 1)
    if tT ≠ "" ∨ tB ≠ "" ∨ tK ≠ "" then
      let fT := if tT = "" then o.title else tT
      let fB := if tB = "" then o.brief else tB
      let fK := if tK = "" then o.taskDesc else tK
      ⟨some ⟨"orders", o.id.getD 0, orderOriginal o, fT ++ "\n" ++ fB ++ "\n" ++ fK⟩, false, calls⟩
    else ⟨none, false, calls⟩
  else ⟨none, false, 0⟩

/-! ### utils/translation_cache.py : check_content_freshness and the
refresh stamp, and core/news.py : refresh_cache_if_needed -/

/-- The state check_content_freshness and refresh_cache_if_needed touch:
the last stamped refresh time of the content type and the stored
ContentIndex. -/
structure CacheState where
  lastRefresh : Option Nat
  index : List Item
deriving DecidableEq

/-- refresh_intervals['dispatches'] (seconds). -/
def dispatchInterval : Nat := 300

/-- TranslationCache.check_content_freshness: inside the minimum refresh
interval the answer is false before anything else is consulted; otherwise
an empty index forces a refresh, else the three-way diff decides. -/
def check_content_freshness (st : CacheState) (now interval : Nat)
    (newItems : List Item) : Bool :=
  let core :=
    if st.index = [] then true
    else
      let c := find_content_changes st.index newItems
      decide (¬ (c.1 = [] ∧ c.2.1 = [] ∧ c.2.2 = []))
  match st.lastRefresh with
  | some t => if now - t < interval then false else core
  | none => core

/-- DispatchService.refresh_cache_if_needed.  The upstream fetch happens
first, unconditionally (the returned Nat counts it); only then is
check_content_freshness consulted on the top five items.  On a needed
refresh the index is overwritten with those items and the timestamp is
stamped. -/
def refresh_cache_if_needed (st : CacheState) (fetched : Option (List Item))
    (now interval : Nat) : Bool × CacheState × Nat :=
  match fetched with
  | none => (false, st, 1)
  | some items =>
    if items = [] then (false, st, 1)
    else
      let top5 := items.take 5
      if check_content_freshness st now interval top5 then
        (true, ⟨some now, top5⟩, 1)
      else (false, st, 1)

/-- Concrete dispatch item for the C1 two-call run. -/
def c1Item : Item := ⟨some 1, "hello"⟩

/-- First call of the C1 run: cold state, successful fetch, at time 0. -/
def c1Run1 : Bool × CacheState × Nat :=
  refresh_cache_if_needed ⟨none, []⟩ (some [c1Item]) 0 dispatchInterval

/-- Second call of the C1 run: one second later, same upstream payload. -/
def c1Run2 : Bool × CacheState × Nat :=
  refresh_cache_if_needed c1Run1.2.1 (some [c1Item]) 1 dispatchInterval

/-! ### core/news.py : get_dispatches -/

/-- Observable outcome of get_dispatches: the returned list, the content
index afterwards, and counters for upstream fetches, full
fetch-translate-store cycles, and individual translation calls. -/
structure GetResult where
  result : Option (List Item)
  newIndex : List Item
  fetches : Nat
  cycles : Nat
  trCalls : Nat
deriving DecidableEq

/-- Translation calls made by _translate_and_cache_dispatches over a
list, given the per-item cache lookup. -/
def translateCallsForList (tr : String → String) (lookup : Int → Option CacheEntry)
    (items : List Item) : Nat :=
  (items.map (fun it => (translate_and_cache_dispatch tr (lookup (it.id.getD 0)) it).calls)).sum

/-- DispatchService.get_dispatches: an empty index triggers one
synchronous fetch; on success the top five items are translated, cached
and stored as the new index and the first `limit` items are returned; a
failed or empty fetch returns none.  A warm index is served directly with
no fetch and no translation. -/
def get_dispatches (tr : String → String) (lookup : Int → Option CacheEntry)
    (index : List Item) (fetched : Option (List Item)) (lim : Nat) : GetResult :=
  if index = [] then
    match fetched with
    | none => ⟨none, index, 1, 0, 0⟩
    | some data =>
      if data = [] then ⟨none, index, 1, 0, 0⟩
      else ⟨some (data.take lim), data.take 5, 1, 1, translateCallsForList tr lookup (data.take 5)⟩
  else ⟨some (index.take lim), index, 0, 0, 0⟩

/-! ### utils/translation_retry_queue.py -/

/-- RetryTask dataclass. -/
structure RetryTask where
  content_type : String
  item_id : Int
  original_text : String
  metadata : List (String × String)
  retry_count : Nat
  created_at : Nat
deriving DecidableEq

/-- The duplicate test of add_retry_task. -/
def taskMatches (ct : String) (iid : Int) (t : RetryTask) : Bool :=
  t.content_type == ct && t.item_id == iid

/-- In-place update of the first matching task: new text and metadata,
retry_count incremented. -/
def updateExisting (ct : String) (iid : Int) (txt : String)
    (md : List (String × String)) : List RetryTask → List RetryTask
  | [] => []
  | t :: rest =>
    if taskMatches ct iid t then
      { t with original_text := txt, metadata := md, retry_count := t.retry_count + 1 } :: rest
    else t :: updateExisting ct iid txt md rest

/-- TranslationRetryQueue.add_retry_task: update the existing task for
the (content_type, item_id) pair when there is one, else append a fresh
task with retry_count 0. -/
def add_retry_task (q : List RetryTask) (ct : String) (iid : Int) (txt : String)
    (md : List (String × String)) (now : Nat) : List RetryTask :=
  if q.any (taskMatches ct iid) then updateExisting ct iid txt md q
  else q ++ [⟨ct, iid, txt, md, 0, now⟩]

/-- At most one task per (content_type, item_id) pair. -/
def uniquePairs (q : List RetryTask) : Prop :=
  (q.map (fun t => (t.content_type, t.item_id))).Nodup

/-- The age test of _process_retry_queue. -/
def taskDue (t : RetryTask) (now interval : Nat) : Bool :=
  decide (t.created_at + interval ≤ now)

/-- Fate of one task in a processing tick: a due task past the maximum is
removed with no attempt; a due task below it is attempted once - removed
on success, kept with retry_count incremented and its timestamp reset on
failure; a task not yet due is untouched. -/
def retryStep (now interval maxR : Nat) (succ : RetryTask → Bool)
    (t : RetryTask) : Option RetryTask :=
  if taskDue t now interval then
    if t.retry_count < maxR then
      if succ t then none
      else some { t with retry_count := t.retry_count + 1, created_at := now }
    else none
  else some t

/-- One tick of _process_retry_queue / _process_retry_tasks: the empty
queue only stops the rotation; otherwise the queue is rewritten by
retryStep and the attempted tasks (due, below the maximum) are reported.
`succ t` is whether the single-shot translation of t succeeded. -/
def process_retry_queue (q : List RetryTask) (now interval maxR : Nat)
    (succ : RetryTask → Bool) : List RetryTask × List RetryTask :=
  if q = [] then ([], [])
  else
    (q.filterMap (retryStep now interval maxR succ),
     q.filter (fun t => taskDue t now interval && decide (t.retry_count < maxR)))

/-- A sequence of ticks at the given times. -/
def run_ticks (interval maxR : Nat) (succ : RetryTask → Bool) :
    List RetryTask → List Nat → List RetryTask
  | q, [] => q
  | q, n :: rest =>
    run_ticks interval maxR succ (process_retry_queue q n interval maxR succ).1 rest

/-! ### utils/cache_manager.py : APICacheManager -/

/-- CacheConfig dataclass (the fetcher is passed separately as the
fetch outcome). -/
structure CacheConfig where
  key : String
  update_interval : Nat
  expiry : Nat
  enabled : Bool
deriving DecidableEq

/-- APICacheManager._update_cache: a fetch that produced data stores the
wrapped payload under the config key and reports success; a fetch that
produced none (or raised - every exception is swallowed into the same
return) reports failure and stores nothing. -/
def update_cache (cfg : CacheConfig) (fetched : Option (List String)) :
    Bool × Option (String × List String) :=
  match fetched with
  | some d => (true, some (cfg.key, d))
  | none => (false, none)

/-- APICacheManager.force_update: an unregistered name is a failure; for
a registered name _update_cache runs but its boolean result is discarded
and true is returned unconditionally. -/
def force_update (configs : List (String × CacheConfig)) (name : String)
    (fetched : Option (List String)) : Bool :=
  match configs.find? (fun p => p.1 == name) with
  | none => false
  | some p =>
    let _discarded := update_cache p.2 fetched
    true

/-- Whether a translate_text attempt outcome is a parsed 200 response
carrying a translation. -/
def isOkOutcome : TransOutcome → Bool
  | .ok _ => true
  | _ => false

/-- Concrete config for the force_update instances. -/
def c10cfg : CacheConfig := ⟨"hd2:war_cache", 30, 3600, true⟩

/-- A retry task that has already used up the default maximum of 5
attempts. -/
def c9TaskStuck : RetryTask := ⟨"dispatches", 1, "hello", [], 5, 0⟩

/-- A freshly enqueued retry task. -/
def c9TaskFresh : RetryTask := ⟨"dispatches", 1, "hello", [], 0, 0⟩

/-! ## Theorems -/

/-! ### helper lemmas for translate_text -/

theorem translateLoopA_total (text : String) (outs : List TransOutcome) :
    (translateLoopA text outs).1 = text ∨
      ∃ t, TransOutcome.ok t ∈ outs ∧ (translateLoopA text outs).1 = t ∧
        t ≠ "" ∧ t ≠ pyStrip text := by
  induction outs with
  | nil => exact Or.inl rfl
  | cons o rest ih =>
    cases o with
    | ok t =>
      by_cases h : t ≠ "" ∧ t ≠ pyStrip text
      · exact Or.inr ⟨t, List.mem_cons_self _ _, by simp [translateLoopA, h], h.1, h.2⟩
      · exact Or.inl (by simp [translateLoopA, h])
    | apiError =>
      rcases ih with h | ⟨t, ht, h1, h2, h3⟩
      · exact Or.inl (by simpa [translateLoopA] using h)
      · exact Or.inr ⟨t, List.mem_cons_of_mem _ ht, by simpa [translateLoopA] using h1, h2, h3⟩
    | badJson =>
      rcases ih with h | ⟨t, ht, h1, h2, h3⟩
      · exact Or.inl (by simpa [translateLoopA] using h)
      · exact Or.inr ⟨t, List.mem_cons_of_mem _ ht, by simpa [translateLoopA] using h1, h2, h3⟩
    | httpStatus c =>
      rcases ih with h | ⟨t, ht, h1, h2, h3⟩
      · exact Or.inl (by simpa [translateLoopA] using h)
      · exact Or.inr ⟨t, List.mem_cons_of_mem _ ht, by simpa [translateLoopA] using h1, h2, h3⟩
    | timeout =>
      rcases ih with h | ⟨t, ht, h1, h2, h3⟩
      · exact Or.inl (by simpa [translateLoopA] using h)
      · exact Or.inr ⟨t, List.mem_cons_of_mem _ ht, by simpa [translateLoopA] using h1, h2, h3⟩
    | netError =>
      rcases ih with h | ⟨t, ht, h1, h2, h3⟩
      · exact Or.inl (by simpa [translateLoopA] using h)
      · exact Or.inr ⟨t, List.mem_cons_of_mem _ ht, by simpa [translateLoopA] using h1, h2, h3⟩
    | exc =>
      rcases ih with h | ⟨t, ht, h1, h2, h3⟩
      · exact Or.inl (by simpa [translateLoopA] using h)
      · exact Or.inr ⟨t, List.mem_cons_of_mem _ ht, by simpa [translateLoopA] using h1, h2, h3⟩

theorem translateLoopA_noOk (text : String) (outs : List TransOutcome)
    (h : ∀ o ∈ outs, isOkOutcome o = false) :
    (translateLoopA text outs).1 = text := by
  induction outs with
  | nil => rfl
  | cons o rest ih =>
    have hrest : ∀ o ∈ rest, isOkOutcome o = false :=
      fun o ho => h o (List.mem_cons_of_mem _ ho)
    cases o with
    | ok t => exact absurd (h _ (List.mem_cons_self _ _)) (by simp [isOkOutcome])
    | apiError => simpa [translateLoopA] using ih hrest
    | badJson => simpa [translateLoopA] using ih hrest
    | httpStatus c => simpa [translateLoopA] using ih hrest
    | timeout => simpa [translateLoopA] using ih hrest
    | netError => simpa [translateLoopA] using ih hrest
    | exc => simpa [translateLoopA] using ih hrest

theorem translateLoopA_echo (text : String) (pre : List TransOutcome) (t : String)
    (post : List TransOutcome) (hpre : ∀ o ∈ pre, isOkOutcome o = false)
    (ht : t = "" ∨ t = pyStrip text) :
    (translateLoopA text (pre ++ TransOutcome.ok t :: post)).1 = text := by
  induction pre with
  | nil =>
    have h : ¬ (t ≠ "" ∧ t ≠ pyStrip text) := by
      rcases ht with h | h <;> simp [h]
    simp [translateLoopA, h]
  | cons o rest ih =>
    have hrest : ∀ o ∈ rest, isOkOutcome o = false :=
      fun o ho => hpre o (List.mem_cons_of_mem _ ho)
    cases o with
    | ok s => exact absurd (hpre _ (List.mem_cons_self _ _)) (by simp [isOkOutcome])
    | apiError => simpa [translateLoopA] using ih hrest
    | badJson => simpa [translateLoopA] using ih hrest
    | httpStatus c => simpa [translateLoopA] using ih hrest
    | timeout => simpa [translateLoopA] using ih hrest
    | netError => simpa [translateLoopA] using ih hrest
    | exc => simpa [translateLoopA] using ih hrest

/-! ### claim C1 -/

/-- C1 counterexample.  The claim says that, after a completed refresh, a
second refresh_cache_if_needed call within the minimum refresh interval
performs no upstream network fetch, the fetch happening at most once
across the two calls.  In the code the fetch runs before the interval
check: in the concrete two-call run below the first call refreshes at
time 0, the second call at time 1 (well inside the 300 s interval)
returns false yet still fetches, for a total of two fetches. -/
theorem c1_counterexample :
    c1Run1.1 = true ∧ c1Run2.1 = false ∧ c1Run1.2.2 + c1Run2.2.2 = 2 := by
  decide

/-- C1 as amended: a refresh_cache_if_needed call made within the minimum
refresh interval of the stamped refresh returns false and leaves the
cache state untouched (no eviction, no translation, no index overwrite,
no restamp), but it still performs exactly one upstream fetch - the
interval check short-circuits the freshness comparison only after the
network call. -/
theorem c1_refresh_within_interval (st : CacheState) (t now interval : Nat)
    (fetched : Option (List Item)) (hts : st.lastRefresh = some t)
    (hlt : now - t < interval) :
    refresh_cache_if_needed st fetched now interval = (false, st, 1) := by
  cases fetched with
  | none => rfl
  | some items =>
    by_cases hi : items = []
    · simp [refresh_cache_if_needed, hi]
    · simp [refresh_cache_if_needed, hi, check_content_freshness, hts, hlt]

theorem c1_refresh_within_interval_witness :
    (⟨some 0, [c1Item]⟩ : CacheState).lastRefresh = some 0 ∧ (5 : Nat) - 0 < 300 ∧
    refresh_cache_if_needed ⟨some 0, [c1Item]⟩ (some [c1Item]) 5 300 =
      (false, ⟨some 0, [c1Item]⟩, 1) :=
  ⟨rfl, by decide,
    c1_refresh_within_interval ⟨some 0, [c1Item]⟩ 0 5 300 (some [c1Item]) rfl (by decide)⟩

/-! ### claim C3 -/

/-- C3 counterexample.  The claim says every upstream HTTP call site,
including the translation call, treats a non-success status outside
{429, 500, 502, 503, 504} as terminal with no further attempt.  The
translation call retries on any non-200 status: after a 404 on the first
attempt it makes a second attempt, which here succeeds. -/
theorem c3_counterexample :
    translateTextA "hello world" [TransOutcome.httpStatus 404, TransOutcome.ok "nihao"] =
      ("nihao", 2) := by
  decide

/-- C3 as amended: the game-data fetch path
(exponential_backoff_retry with the default status list) retries exactly
on {429, 500, 502, 503, 504} and on timeout/network exceptions, and any
other non-200 status is terminal there - no further attempt; the
translation call site, however, retries on every non-200 status. -/
theorem c3_retry_policy (α : Type) (rest : List (ApiOutcome α)) (c : Nat) (text : String)
    (touts : List TransOutcome) :
    (c ≠ 200 → c ∉ defaultRetryOn →
      exponential_backoff_retry defaultRetryOn (ApiOutcome.httpStatus c :: rest) =
        (none, 1)) ∧
    (c ∈ defaultRetryOn →
      exponential_backoff_retry defaultRetryOn (ApiOutcome.httpStatus c :: rest) =
        ((exponential_backoff_retry defaultRetryOn rest).1,
          (exponential_backoff_retry defaultRetryOn rest).2 + 1)) ∧
    (exponential_backoff_retry defaultRetryOn (ApiOutcome.timeout :: rest) =
      ((exponential_backoff_retry defaultRetryOn rest).1,
        (exponential_backoff_retry defaultRetryOn rest).2 + 1)) ∧
    (exponential_backoff_retry defaultRetryOn (ApiOutcome.netError :: rest) =
      ((exponential_backoff_retry defaultRetryOn rest).1,
        (exponential_backoff_retry defaultRetryOn rest).2 + 1)) ∧
    (translateLoopA text (TransOutcome.httpStatus c :: touts) =
      ((translateLoopA text touts).1, (translateLoopA text touts).2 + 1)) := by
  refine ⟨?_, ?_, ?_, ?_, ?_⟩
  · intro h1 h2
    simp [exponential_backoff_retry, h1, h2]
  · intro h
    have h200 : ¬ (c = 200) := by
      rintro rfl
      simp [defaultRetryOn] at h
    simp [exponential_backoff_retry, h200, h]
  · rfl
  · rfl
  · rfl

theorem c3_retry_policy_witness :
    (404 : Nat) ≠ 200 ∧ (404 : Nat) ∉ defaultRetryOn ∧
    exponential_backoff_retry defaultRetryOn
        ([ApiOutcome.httpStatus 404] : List (ApiOutcome Unit)) = (none, 1) :=
  ⟨by decide, by decide,
    (c3_retry_policy Unit [] 404 "hello" []).1 (by decide) (by decide)⟩

/-! ### claim C4 -/

/-- C4: translate_text is total and always returns displayable text -
its result is either the original text or a translation carried by some
successful attempt that is nonempty and differs from the trimmed source;
when every attempt outcome is a failure the original text comes back
(retry exhaustion never surfaces an error); and a successful response
whose translated text is empty or echoes the trimmed source is treated
as a failure, returning the original text immediately. -/
theorem c4_translate_never_fails (text : String) (outs : List TransOutcome) :
    (translate_text text outs = text ∨
      ∃ t, TransOutcome.ok t ∈ outs ∧ translate_text text outs = t ∧
        t ≠ "" ∧ t ≠ pyStrip text) ∧
    ((∀ o ∈ outs, isOkOutcome o = false) → translate_text text outs = text) ∧
    (∀ pre t post, outs = pre ++ TransOutcome.ok t :: post →
      (∀ o ∈ pre, isOkOutcome o = false) → (t = "" ∨ t = pyStrip text) →
      translate_text text outs = text) := by
  refine ⟨?_, ?_, ?_⟩
  · unfold translate_text translateTextA
    split_ifs with h1 h2 h3
    · exact Or.inl rfl
    · exact Or.inl rfl
    · exact Or.inl rfl
    · exact translateLoopA_total text outs
  · intro h
    unfold translate_text translateTextA
    split_ifs with h1 h2 h3
    · rfl
    · rfl
    · rfl
    · exact translateLoopA_noOk text outs h
  · intro pre t post heq hpre ht
    unfold translate_text translateTextA
    split_ifs with h1 h2 h3
    · rfl
    · rfl
    · rfl
    · subst heq
      exact translateLoopA_echo text pre t post hpre ht

theorem c4_translate_never_fails_witness :
    (∀ o ∈ ([TransOutcome.timeout] : List TransOutcome), isOkOutcome o = false) ∧
    (("hello world" : String) = "" ∨ ("hello world" : String) = pyStrip "hello world") ∧
    translate_text "hello world"
      [TransOutcome.timeout, TransOutcome.ok "hello world"] = "hello world" :=
  ⟨by decide, Or.inr (by decide),
    (c4_translate_never_fails "hello world"
        [TransOutcome.timeout, TransOutcome.ok "hello world"]).2.2
      [TransOutcome.timeout] "hello world" [] rfl (by decide) (Or.inr (by decide))⟩

/-! ### claim C5 -/

/-- C5: when exactly one of the texts is empty the similarity is 0 and
is_content_outdated is true; for two empty texts the similarity is 1 and
is_content_outdated is false; and in general is_content_outdated is true
exactly when the computed similarity is strictly below the 0.99
threshold. -/
theorem c5_similarity_threshold (t1 t2 : String) :
    (t1 = "" ∧ t2 = "" →
      calculate_similarity t1 t2 = 1 ∧ is_content_outdated t1 t2 = false) ∧
    ((t1 = "" ∧ t2 ≠ "") ∨ (t1 ≠ "" ∧ t2 = "") →
      calculate_similarity t1 t2 = 0 ∧ is_content_outdated t1 t2 = true) ∧
    (is_content_outdated t1 t2 = true ↔
      calculate_similarity t1 t2 < similarity_threshold) := by
  refine ⟨?_, ?_, ?_⟩
  · rintro ⟨h1, h2⟩
    subst h1
    subst h2
    exact ⟨by decide, by decide⟩
  · intro h
    have hsim : calculate_similarity t1 t2 = 0 := by
      rcases h with ⟨h1, h2⟩ | ⟨h1, h2⟩
      · simp [calculate_similarity, h1, h2]
      · simp [calculate_similarity, h1, h2]
    refine ⟨hsim, ?_⟩
    simp only [is_content_outdated, hsim]
    decide
  · simp [is_content_outdated]

theorem c5_similarity_threshold_witness :
    ((("" : String) = "" ∧ ("x" : String) ≠ "") ∨
      (("" : String) ≠ "" ∧ ("x" : String) = "")) ∧
    (calculate_similarity "" "x" = 0 ∧ is_content_outdated "" "x" = true) :=
  ⟨Or.inl ⟨rfl, by decide⟩,
    (c5_similarity_threshold "" "x").2.1 (Or.inl ⟨rfl, by decide⟩)⟩

/-! ### claim C10 -/

/-- C10: force_update on a registered cache name returns true no matter
what the underlying fetch produced - the boolean of _update_cache is
discarded - while _update_cache itself reports failure when the fetch
returned no data. -/
theorem c10_force_update (configs : List (String × CacheConfig)) (name : String)
    (fetched : Option (List String)) (p : String × CacheConfig)
    (h : configs.find? (fun q => q.1 == name) = some p) :
    force_update configs name fetched = true ∧ (update_cache p.2 none).1 = false := by
  constructor
  · simp [force_update, h]
  · rfl

theorem c10_force_update_witness :
    ([("war", c10cfg)].find? (fun q => q.1 == "war") = some ("war", c10cfg)) ∧
    force_update [("war", c10cfg)] "war" none = true :=
  ⟨by decide,
    (c10_force_update [("war", c10cfg)] "war" none ("war", c10cfg) (by decide)).1⟩

/-! ### claim C2 -/

/-- C2 counterexample.  The claim says a RetryTask is enqueued if and
only if every field of the item failed to translate.  In the orders
variant the enqueue call is commented out: for an item whose only
nonempty field fails to translate (the translation echoes the source,
which the code treats as failure), nothing is cached and no RetryTask is
enqueued either. -/
theorem c2_counterexample :
    translate_and_cache_order (fun s => s) none ⟨some 1, "Hello World", "", ""⟩ =
      ⟨none, false, 1⟩ ∧
    fieldResult (fun s => s) "Hello World" = "" := by
  constructor
  · rfl
  · rfl

/-- C2 as amended.  For a fresh, nonempty dispatch item the single-field
variant does satisfy the claim: a cache entry is stored iff the
translation succeeded, and a RetryTask is enqueued iff it failed.  For a
fresh orders item a cache entry is stored iff at least one field
translated (its translated_text falling back to the original per failed
field), but no RetryTask is ever enqueued on this path, not even when
every field failed - the enqueue only exists for dispatches. -/
theorem c2_translate_and_cache (tr : String → String) (cached : Option CacheEntry)
    (it : Item) (o : OrderItem) (hm : it.message ≠ "")
    (hfd : dispatchFresh cached it.message = true)
    (ho : ¬ (o.title = "" ∧ o.brief = "" ∧ o.taskDesc = ""))
    (hfo : orderFresh cached o = true) :
    ((translate_and_cache_dispatch tr cached it).stored.isSome = true ↔
      (tr it.message ≠ "" ∧ tr it.message ≠ it.message)) ∧
    ((translate_and_cache_dispatch tr cached it).retry = true ↔
      ¬ (tr it.message ≠ "" ∧ tr it.message ≠ it.message)) ∧
    ((translate_and_cache_order tr cached o).retry = false) ∧
    ((translate_and_cache_order tr cached o).stored.isSome = true ↔
      (fieldResult tr o.title ≠ "" ∨ fieldResult tr o.brief ≠ "" ∨
        fieldResult tr o.taskDesc ≠ "")) ∧
    (∀ e, (translate_and_cache_order tr cached o).stored = some e →
      e.translated_text =
        (if fieldResult tr o.title = "" then o.title else fieldResult tr o.title) ++ "\n" ++
        (if fieldResult tr o.brief = "" then o.brief else fieldResult tr o.brief) ++ "\n" ++
        (if fieldResult tr o.taskDesc = "" then o.taskDesc
          else fieldResult tr o.taskDesc)) := by
  have hdisp : translate_and_cache_dispatch tr cached it =
      if tr it.message ≠ "" ∧ tr it.message ≠ it.message then
        ⟨some ⟨"dispatches", it.id.getD 0, it.message, tr it.message⟩, false, 1⟩
      else ⟨none, true, 1⟩ := by
    unfold translate_and_cache_dispatch
    rw [if_neg hm, if_pos hfd]
  have hord : translate_and_cache_order tr cached o =
      if fieldResult tr o.title ≠ "" ∨ fieldResult tr o.brief ≠ "" ∨
          fieldResult tr o.taskDesc ≠ "" then
        ⟨some ⟨"orders", o.id.getD 0, orderOriginal o,
          (if fieldResult tr o.title = "" then o.title else fieldResult tr o.title) ++ "\n" ++
          (if fieldResult tr o.brief = "" then o.brief else fieldResult tr o.brief) ++ "\n" ++
          (if fieldResult tr o.taskDesc = "" then o.taskDesc
            else fieldResult tr o.taskDesc)⟩, false,
          (if o.title = "" then 0 else 1) + (if o.brief = "" then 0 else 1) +
            (if o.taskDesc = "" then 0 else 1)⟩
      else ⟨none, false,
        (if o.title = "" then 0 else 1) + (if o.brief = "" then 0 else 1) +
          (if o.taskDesc = "" then 0 else 1)⟩ := by
    unfold translate_and_cache_order
    rw [if_neg ho, if_pos hfo]
  refine ⟨?_, ?_, ?_, ?_, ?_⟩
  · rw [hdisp]
    by_cases hd : tr it.message ≠ "" ∧ tr it.message ≠ it.message
    · simp [hd]
    · simp [hd]
  · rw [hdisp]
    by_cases hd : tr it.message ≠ "" ∧ tr it.message ≠ it.message
    · simp [hd]
    · simp [hd]
  · rw [hord]
    by_cases hor : fieldResult tr o.title ≠ "" ∨ fieldResult tr o.brief ≠ "" ∨
      fieldResult tr o.taskDesc ≠ ""
    · simp [hor]
    · simp [hor]
  · rw [hord]
    by_cases hor : fieldResult tr o.title ≠ "" ∨ fieldResult tr o.brief ≠ "" ∨
      fieldResult tr o.taskDesc ≠ ""
    · simp [hor]
    · simp [hor]
  · intro e he
    rw [hord] at he
    by_cases hor : fieldResult tr o.title ≠ "" ∨ fieldResult tr o.brief ≠ "" ∨
      fieldResult tr o.taskDesc ≠ ""
    · rw [if_pos hor] at he
      dsimp only at he
      injection he with h
      subst h
      rfl
    · rw [if_neg hor] at he
      dsimp only at he
      exact absurd he (by simp)

theorem c2_translate_and_cache_witness :
    (("hello" : String) ≠ "" ∧ dispatchFresh none "hello" = true ∧
      ¬ (("Alpha" : String) = "" ∧ ("" : String) = "" ∧ ("Beta" : String) = "") ∧
      orderFresh none ⟨some 2, "Alpha", "", "Beta"⟩ = true) ∧
    (translate_and_cache_order (fun _ => "nihao") none
        ⟨some 2, "Alpha", "", "Beta"⟩).retry = false :=
  ⟨⟨by decide, rfl, by decide, rfl⟩,
    (c2_translate_and_cache (fun _ => "nihao") none ⟨some 1, "hello"⟩
        ⟨some 2, "Alpha", "", "Beta"⟩ (by decide) rfl (by decide) rfl).2.2.1⟩

/-! ### claim C6 -/

theorem pyInsert_not_mem (d : List (Int × Item)) (k : Int) (v : Item)
    (h : k ∉ d.map Prod.fst) : pyInsert d k v = d ++ [(k, v)] := by
  simp [pyInsert, h]

theorem foldl_pyInsert_append (ps : List (Int × Item)) (d : List (Int × Item))
    (hdisj : ∀ p ∈ ps, p.1 ∉ d.map Prod.fst) (hnd : (ps.map Prod.fst).Nodup) :
    ps.foldl (fun d p => pyInsert d p.1 p.2) d = d ++ ps := by
  induction ps generalizing d with
  | nil => simp
  | cons p rest ih =>
    have hp : p.1 ∉ d.map Prod.fst := hdisj p (List.mem_cons_self _ _)
    have hnd2 := hnd
    rw [List.map_cons, List.nodup_cons] at hnd2
    have hnd' : (rest.map Prod.fst).Nodup := hnd2.2
    have hhead : p.1 ∉ rest.map Prod.fst := hnd2.1
    have hdisj' : ∀ r ∈ rest, r.1 ∉ (d ++ [p]).map Prod.fst := by
      intro r hr
      simp only [List.map_append, List.mem_append, List.map_cons, List.map_nil,
        List.mem_singleton, not_or]
      refine ⟨hdisj r (List.mem_cons_of_mem _ hr), ?_⟩
      intro hcon
      exact hhead (by simpa [hcon] using List.mem_map_of_mem Prod.fst hr)
    calc (p :: rest).foldl (fun d p => pyInsert d p.1 p.2) d
        = rest.foldl (fun d p => pyInsert d p.1 p.2) (pyInsert d p.1 p.2) := by
          rw [List.foldl_cons]
      _ = rest.foldl (fun d p => pyInsert d p.1 p.2) (d ++ [p]) := by
          rw [pyInsert_not_mem d p.1 p.2 hp]
      _ = (d ++ [p]) ++ rest := ih (d ++ [p]) hdisj' hnd'
      _ = d ++ p :: rest := by simp

theorem pyDict_eq_keyedList (items : List Item)
    (h : ((keyedList items).map Prod.fst).Nodup) :
    pyDict items = keyedList items := by
  simpa [pyDict] using
    foldl_pyInsert_append (keyedList items) [] (by simp) h

/-- C6: when the computed keys (the id, or the positional index when the
id is absent) are distinct on each side, find_content_changes returns
exactly the three filters the specification describes: fresh items whose
key is absent from the cached keys (added), fresh items whose key is
present but whose compare field fails the similarity test against the
cached item (updated), and cached items whose key is absent from the
fresh keys (deleted). -/
theorem c6_find_changes (cached_items new_items : List Item)
    (h1 : ((keyedList cached_items).map Prod.fst).Nodup)
    (h2 : ((keyedList new_items).map Prod.fst).Nodup) :
    find_content_changes cached_items new_items =
      findChangesSpec cached_items new_items := by
  unfold find_content_changes findChangesSpec
  rw [pyDict_eq_keyedList cached_items h1, pyDict_eq_keyedList new_items h2]

theorem c6_find_changes_witness :
    ((keyedList [(⟨some 1, "a"⟩ : Item)]).map Prod.fst).Nodup ∧
    ((keyedList [(⟨some 1, "a"⟩ : Item), ⟨some 2, "b"⟩]).map Prod.fst).Nodup ∧
    find_content_changes [⟨some 1, "a"⟩] [⟨some 1, "a"⟩, ⟨some 2, "b"⟩] =
      findChangesSpec [⟨some 1, "a"⟩] [⟨some 1, "a"⟩, ⟨some 2, "b"⟩] ∧
    find_content_changes [⟨some 1, "a"⟩] [⟨some 1, "a"⟩, ⟨some 2, "b"⟩] =
      ([⟨some 2, "b"⟩], [], []) :=
  ⟨by decide, by decide,
    c6_find_changes [⟨some 1, "a"⟩] [⟨some 1, "a"⟩, ⟨some 2, "b"⟩] (by decide) (by decide),
    by decide⟩

/-! ### claim C7 -/

/-- C7: get_dispatches on a cold (empty) index with a successful nonempty
fetch performs exactly one fetch and one translate-and-store cycle, the
new index becomes the top five items (so a second call is warm), and at
most `lim` items are returned; on a warm index it performs no fetch, no
cycle and no translation call and returns at most `lim` cached items. -/
theorem c7_get_dispatches (tr : String → String) (lookup : Int → Option CacheEntry)
    (index : List Item) (fetched : Option (List Item)) (lim : Nat) :
    (index = [] → ∀ data, fetched = some data → data ≠ [] →
      get_dispatches tr lookup index fetched lim =
        ⟨some (data.take lim), data.take 5, 1, 1,
          translateCallsForList tr lookup (data.take 5)⟩ ∧
      (data.take lim).length ≤ lim ∧ data.take 5 ≠ []) ∧
    (index ≠ [] →
      get_dispatches tr lookup index fetched lim =
        ⟨some (index.take lim), index, 0, 0, 0⟩ ∧
      (index.take lim).length ≤ lim) := by
  constructor
  · intro hidx data hf hd
    subst hidx
    subst hf
    refine ⟨by simp [get_dispatches, hd], ?_, ?_⟩
    · rw [List.length_take]
      exact min_le_left _ _
    · intro hcon
      rcases List.take_eq_nil_iff.mp hcon with h | h
      · exact absurd h (by decide)
      · exact hd h
  · intro hidx
    refine ⟨by simp [get_dispatches, hidx], ?_⟩
    rw [List.length_take]
    exact min_le_left _ _

theorem c7_get_dispatches_witness :
    (([] : List Item) = []) ∧ ((some [(⟨some 1, "hello"⟩ : Item)]) = some [⟨some 1, "hello"⟩]) ∧
    ([(⟨some 1, "hello"⟩ : Item)] ≠ []) ∧
    (get_dispatches (fun _ => "nihao") (fun _ => none) [] (some [⟨some 1, "hello"⟩]) 3 =
        ⟨some ([⟨some 1, "hello"⟩].take 3), [⟨some 1, "hello"⟩].take 5, 1, 1,
          translateCallsForList (fun _ => "nihao") (fun _ => none)
            ([⟨some 1, "hello"⟩].take 5)⟩ ∧
      ([(⟨some 1, "hello"⟩ : Item)].take 3).length ≤ 3 ∧
      [(⟨some 1, "hello"⟩ : Item)].take 5 ≠ []) :=
  ⟨rfl, rfl, by decide,
    (c7_get_dispatches (fun _ => "nihao") (fun _ => none) [] (some [⟨some 1, "hello"⟩]) 3).1
      rfl [⟨some 1, "hello"⟩] rfl (by decide)⟩

/-! ### claim C8 -/

theorem updateExisting_append (ct : String) (iid : Int) (txt : String)
    (md : List (String × String)) (q₁ q₂ : List RetryTask) (t : RetryTask)
    (h₁ : ∀ u ∈ q₁, taskMatches ct iid u = false) (h₂ : taskMatches ct iid t = true) :
    updateExisting ct iid txt md (q₁ ++ t :: q₂) =
      q₁ ++ { t with original_text := txt, metadata := md,
                     retry_count := t.retry_count + 1 } :: q₂ := by
  induction q₁ with
  | nil => simp [updateExisting, h₂]
  | cons u rest ih =>
    have hu : taskMatches ct iid u = false := h₁ u (List.mem_cons_self _ _)
    have ih' := ih (fun v hv => h₁ v (List.mem_cons_of_mem _ hv))
    simp [updateExisting, hu, ih']

/-- C8: the retry queue keeps at most one task per (content_type,
item_id) pair.  Enqueueing a failure for a pair already present rewrites
that task in place - new original_text and metadata, retry_count
incremented - leaving the queue length unchanged instead of appending a
second task, and the at-most-one-per-pair invariant is preserved. -/
theorem c8_retry_queue_unique (q₁ q₂ : List RetryTask) (t : RetryTask) (ct : String)
    (iid : Int) (txt : String) (md : List (String × String)) (now : Nat)
    (h₁ : ∀ u ∈ q₁, taskMatches ct iid u = false) (h₂ : taskMatches ct iid t = true) :
    add_retry_task (q₁ ++ t :: q₂) ct iid txt md now =
      q₁ ++ { t with original_text := txt, metadata := md,
                     retry_count := t.retry_count + 1 } :: q₂ ∧
    (add_retry_task (q₁ ++ t :: q₂) ct iid txt md now).length = (q₁ ++ t :: q₂).length ∧
    (uniquePairs (q₁ ++ t :: q₂) →
      uniquePairs (add_retry_task (q₁ ++ t :: q₂) ct iid txt md now)) := by
  have hany : (q₁ ++ t :: q₂).any (taskMatches ct iid) = true := by
    simp only [List.any_append, List.any_cons, h₂, Bool.true_or, Bool.or_true]
  have heq : add_retry_task (q₁ ++ t :: q₂) ct iid txt md now =
      q₁ ++ { t with original_text := txt, metadata := md,
                     retry_count := t.retry_count + 1 } :: q₂ := by
    rw [add_retry_task, if_pos hany]
    exact updateExisting_append ct iid txt md q₁ q₂ t h₁ h₂
  refine ⟨heq, by rw [heq]; simp, ?_⟩
  intro hu
  rw [heq]
  unfold uniquePairs at hu ⊢
  simpa using hu

theorem c8_retry_queue_unique_witness :
    (∀ u ∈ ([] : List RetryTask), taskMatches "dispatches" 7 u = false) ∧
    taskMatches "dispatches" 7 ⟨"dispatches", 7, "old", [], 2, 0⟩ = true ∧
    add_retry_task [⟨"dispatches", 7, "old", [], 2, 0⟩] "dispatches" 7 "new" [] 5 =
      [⟨"dispatches", 7, "new", [], 3, 0⟩] :=
  ⟨by simp, by decide,
    (c8_retry_queue_unique [] [] ⟨"dispatches", 7, "old", [], 2, 0⟩ "dispatches" 7
        "new" [] 5 (by simp) (by decide)).1⟩

/-! ### claim C9 -/

theorem process_tick_fail (t : RetryTask) (now interval maxR : Nat)
    (succ : RetryTask → Bool) (hd : taskDue t now interval = true)
    (hc : t.retry_count < maxR) (hs : succ t = false) :
    process_retry_queue [t] now interval maxR succ =
      ([{ t with retry_count := t.retry_count + 1, created_at := now }], [t]) := by
  simp [process_retry_queue, retryStep, hd, hc, hs]

theorem process_tick_exhaust (t : RetryTask) (now interval maxR : Nat)
    (succ : RetryTask → Bool) (hd : taskDue t now interval = true)
    (hc : maxR ≤ t.retry_count) :
    process_retry_queue [t] now interval maxR succ = ([], []) := by
  have hlt : ¬ t.retry_count < maxR := Nat.not_lt.mpr hc
  simp [process_retry_queue, retryStep, hd, hlt]

/-- C9: a task whose retry_count has reached the maximum is never among
the attempted tasks of a tick, and at its first due tick it is removed
without a translation attempt; a due task below the maximum whose
attempt fails stays with retry_count incremented and its timestamp reset
to the tick time; the empty queue stays empty forever; and a fresh task
whose attempts always fail is attempted five times (the default maximum)
across due ticks and is then removed for good - six spaced ticks leave
the queue empty. -/
theorem c9_retry_abandon (q : List RetryTask) (now interval maxR : Nat)
    (succ : RetryTask → Bool) (t t0 : RetryTask) (n1 n2 n3 n4 n5 n6 : Nat) :
    (maxR ≤ t.retry_count → t ∉ (process_retry_queue q now interval maxR succ).2) ∧
    (taskDue t now interval = true → maxR ≤ t.retry_count →
      process_retry_queue [t] now interval maxR succ = ([], [])) ∧
    (taskDue t now interval = true → t.retry_count < maxR → succ t = false →
      process_retry_queue [t] now interval maxR succ =
        ([{ t with retry_count := t.retry_count + 1, created_at := now }], [t])) ∧
    (∀ times, run_ticks interval maxR succ [] times = []) ∧
    (t0.retry_count = 0 → t0.created_at + 60 ≤ n1 → n1 + 60 ≤ n2 → n2 + 60 ≤ n3 →
      n3 + 60 ≤ n4 → n4 + 60 ≤ n5 → n5 + 60 ≤ n6 →
      run_ticks 60 5 (fun _ => false) [t0] [n1, n2, n3, n4, n5, n6] = []) := by
  refine ⟨?_, ?_, ?_, ?_, ?_⟩
  · intro h hmem
    by_cases hq : q = []
    · simp [process_retry_queue, hq] at hmem
    · unfold process_retry_queue at hmem
      rw [if_neg hq] at hmem
      dsimp only at hmem
      rcases List.mem_filter.mp hmem with ⟨-, hpred⟩
      simp only [Bool.and_eq_true, decide_eq_true_eq] at hpred
      omega
  · exact process_tick_exhaust t now interval maxR succ
  · exact process_tick_fail t now interval maxR succ
  · intro times
    induction times with
    | nil => rfl
    | cons n rest ih => simpa [run_ticks, process_retry_queue] using ih
  · intro h0 hd1 hd2 hd3 hd4 hd5 hd6
    have s1 := congrArg Prod.fst (process_tick_fail t0 n1 60 5 (fun _ => false)
      (by simpa [taskDue] using hd1) (by omega) rfl)
    have s2 := congrArg Prod.fst (process_tick_fail
      ⟨t0.content_type, t0.item_id, t0.original_text, t0.metadata, t0.retry_count + 1, n1⟩
      n2 60 5 (fun _ => false) (by simpa [taskDue] using hd2)
      (show t0.retry_count + 1 < 5 by omega) rfl)
    have s3 := congrArg Prod.fst (process_tick_fail
      ⟨t0.content_type, t0.item_id, t0.original_text, t0.metadata,
        t0.retry_count + 1 + 1, n2⟩
      n3 60 5 (fun _ => false) (by simpa [taskDue] using hd3)
      (show t0.retry_count + 1 + 1 < 5 by omega) rfl)
    have s4 := congrArg Prod.fst (process_tick_fail
      ⟨t0.content_type, t0.item_id, t0.original_text, t0.metadata,
        t0.retry_count + 1 + 1 + 1, n3⟩
      n4 60 5 (fun _ => false) (by simpa [taskDue] using hd4)
      (show t0.retry_count + 1 + 1 + 1 < 5 by omega) rfl)
    have s5 := congrArg Prod.fst (process_tick_fail
      ⟨t0.content_type, t0.item_id, t0.original_text, t0.metadata,
        t0.retry_count + 1 + 1 + 1 + 1, n4⟩
      n5 60 5 (fun _ => false) (by simpa [taskDue] using hd5)
      (show t0.retry_count + 1 + 1 + 1 + 1 < 5 by omega) rfl)
    have s6 := congrArg Prod.fst (process_tick_exhaust
      ⟨t0.content_type, t0.item_id, t0.original_text, t0.metadata,
        t0.retry_count + 1 + 1 + 1 + 1 + 1, n5⟩
      n6 60 5 (fun _ => false) (by simpa [taskDue] using hd6)
      (show 5 ≤ t0.retry_count + 1 + 1 + 1 + 1 + 1 by omega))
    simp only [run_ticks]
    rw [s1]
    dsimp only
    rw [s2]
    dsimp only
    rw [s3]
    dsimp only
    rw [s4]
    dsimp only
    rw [s5]
    dsimp only
    rw [s6]

theorem c9_retry_abandon_witness :
    taskDue c9TaskStuck 100 60 = true ∧ 5 ≤ c9TaskStuck.retry_count ∧
    process_retry_queue [c9TaskStuck] 100 60 5 (fun _ => false) = ([], []) ∧
    (c9TaskFresh.retry_count = 0 ∧ c9TaskFresh.created_at + 60 ≤ 60) ∧
    run_ticks 60 5 (fun _ => false) [c9TaskFresh] [60, 120, 180, 240, 300, 360] = [] :=
  ⟨by decide, by decide,
    (c9_retry_abandon [c9TaskStuck] 100 60 5 (fun _ => false) c9TaskStuck c9TaskFresh
        60 120 180 240 300 360).2.1 (by decide) (by decide),
    ⟨by decide, by decide⟩,
    (c9_retry_abandon [c9TaskStuck] 100 60 5 (fun _ => false) c9TaskStuck c9TaskFresh
        60 120 180 240 300 360).2.2.2.2 (by decide) (by decide) (by decide) (by decide)
      (by decide) (by decide) (by decide)⟩

end HD2
